import Mathlib

/-!
# Verification of the Spotify "Now Playing" service layer

Shallow embedding of `src/spotify-widget/src/lib/services/spotify.ts`.

Modelling conventions:
* JavaScript values that the code tests for truthiness (`!x`, `x || d`) are
  modelled as `Option String`, with `truthy` capturing that both a missing
  field and the empty string are falsy.
* An upstream HTTP interaction (`fetch` + `response.json()`) is modelled by
  `FetchOutcome`: the fetch promise may reject (`throw`), or yield a response
  with a numeric status whose body either parses to a structured value
  (`some b`) or fails to parse (`none`, i.e. `response.json()` rejects).
* The three upstream collaborators (token endpoint, currently-playing
  endpoint, recently-played endpoint) and the three credential environment
  variables form an `Env`, fixed for the duration of one call.
* The module-level mutable `cache` variable is threaded explicitly: every
  function that reads or writes it takes the current value and returns the
  new one.  `Date.now()` is modelled as a single instant `now : Nat` for the
  whole call (no time passes inside one invocation).
* A thrown JavaScript exception is an `Except.error`; `getSpotifyData`'s
  outer `try/catch` turns every such error into a normal return, which is
  why its result type `Except String FetchResult` can be proved to always
  be `Except.ok`.
* Each upstream request the code issues (including one whose promise
  rejects) is recorded in a `List Call`, so that "performs no upstream
  call" is expressible.
-/

namespace SpotifyService

/-- The normalized record exposed to callers (`SpotifyData` in the source). -/
structure SpotifyData where
  isPlaying : Bool
  songUrl : Option String
  title : String
  albumImageUrl : Option String
  artist : String
deriving DecidableEq, Repr

/-- One entry of the in-memory cache (`CacheEntry` in the source). -/
structure CacheEntry where
  data : SpotifyData
  timestamp : Nat
deriving DecidableEq, Repr

/-- `const CACHE_DURATION = 15000; // 15 seconds cache` -/
def CACHE_DURATION : Nat := 15000

/-- One album image; only the `url` field is ever read. -/
structure SpotifyImage where
  url : String
deriving DecidableEq, Repr

/-- The album object; only the `images` array is ever read. -/
structure SpotifyAlbum where
  images : List SpotifyImage
deriving DecidableEq, Repr

/-- The fields of a raw track payload that the service reads.
`external_urls_spotify` models `track.external_urls?.spotify` (absent when
either `external_urls` or its `spotify` field is missing); `album` is
optional because the code guards it with `track.album?.…`; `artists` models
the artists array reduced to its `name` fields, `none` when the whole array
is missing (the code tests `track.artists?` and `!data.item.artists`);
a missing `name` is modelled as the empty string, which is
indistinguishable from it under the code's truthiness tests. -/
structure Track where
  external_urls_spotify : Option String
  name : String
  album : Option SpotifyAlbum
  artists : Option (List String)
deriving DecidableEq, Repr

/-- Parsed JSON body of the token endpoint; the code reads `access_token`,
`error` and `error_description`. -/
structure TokenBody where
  access_token : Option String
  error : Option String
  error_description : Option String
deriving DecidableEq, Repr

/-- One element of the recently-played `items` array; its `track` field may
be missing (in which case `mapSpotifyData(json.items[0].track)` throws a
`TypeError`, caught by the local handler). -/
structure RecentlyPlayedItem where
  track : Option Track
deriving DecidableEq, Repr

/-- Parsed JSON body of the recently-played endpoint. -/
structure RecentlyPlayedBody where
  items : Option (List RecentlyPlayedItem)
deriving DecidableEq, Repr

/-- Parsed JSON body of the currently-playing endpoint. -/
structure NowPlayingBody where
  item : Option Track
  currently_playing_type : Option String
  is_playing : Bool
deriving DecidableEq, Repr

/-- Behaviour of one upstream HTTP interaction: the fetch promise rejects,
or a response arrives with the given status and a body that either parses
(`some`) or makes `response.json()` reject (`none`). -/
inductive FetchOutcome (β : Type) where
  | throw : FetchOutcome β
  | resp (status : Nat) (body : Option β) : FetchOutcome β
deriving DecidableEq, Repr

/-- The whole external world of one `getSpotifyData` call: the three
credential environment variables (`none` models an unset variable) and the
behaviour of the three upstream endpoints. -/
structure Env where
  clientId : Option String
  clientSecret : Option String
  refreshToken : Option String
  tokenResp : FetchOutcome TokenBody
  npResp : FetchOutcome NowPlayingBody
  rpResp : FetchOutcome RecentlyPlayedBody
deriving DecidableEq, Repr

/-- JavaScript truthiness of a possibly-missing string: `undefined` and
`""` are falsy, every other string is truthy. -/
def truthy : Option String → Bool
  | none => false
  | some s => s != ""

/-- `Response.ok` of the Fetch API: status in the inclusive range 200–299. -/
def respOk (status : Nat) : Bool := 200 ≤ status && status ≤ 299

/-- `x || null` on a possibly-missing string field. -/
def strOrNull (o : Option String) : Option String :=
  match o with
  | none => none
  | some s => if s = "" then none else some s

/-- The upstream requests a call can issue. -/
inductive Call where
  | token
  | nowPlaying
  | recentlyPlayed
deriving DecidableEq, Repr

/-- `getAccessToken`: the credential check precedes any network call, so no
`Call.token` is recorded when a credential is falsy; afterwards the token
request is always issued and its outcome decides between an error (thrown
exception) and the parsed body. -/
def getAccessToken (env : Env) : Except String TokenBody × List Call :=
  if !truthy env.clientId || !truthy env.clientSecret || !truthy env.refreshToken then
    (.error "Missing Spotify credentials in environment variables", [])
  else
    match env.tokenResp with
    | .throw => (.error "fetch rejected", [.token])
    | .resp status body =>
      if !respOk status then
        (.error ("Token refresh failed: " ++ toString status), [.token])
      else
        match body with
        | none => (.error "response.json() rejected", [.token])
        | some data =>
          if truthy data.error then
            (.error ("Spotify auth error: " ++
              (data.error_description.filter (· ≠ "")).getD (data.error.getD "")), [.token])
          else
            (.ok data, [.token])

/-- The four normalized fields produced by `mapSpotifyData` (which does not
set `isPlaying`; callers spread it into a record together with a flag). -/
structure TrackInfo where
  songUrl : Option String
  title : String
  albumImageUrl : Option String
  artist : String
deriving DecidableEq, Repr

/-- `mapSpotifyData`, field by field:
`track.external_urls?.spotify || null`; `track.name || "Unknown Track"`;
`track.album?.images[0]?.url || null`;
`track.artists?.map(a => a.name).join(", ") || "Unknown Artist"`. -/
def mapSpotifyData (track : Track) : TrackInfo where
  songUrl := strOrNull track.external_urls_spotify
  title := if track.name = "" then "Unknown Track" else track.name
  albumImageUrl := strOrNull (track.album.bind fun a => a.images.head?.map fun i => i.url)
  artist :=
    let joined := String.intercalate ", " (track.artists.getD [])
    if track.artists.isNone || joined == "" then "Unknown Artist" else joined

/-- `{ isPlaying: b, ...info }` -/
def withPlaying (b : Bool) (t : TrackInfo) : SpotifyData where
  isPlaying := b
  songUrl := t.songUrl
  title := t.title
  albumImageUrl := t.albumImageUrl
  artist := t.artist

/-- Placeholder returned by `getRecentlyPlayed` on an empty history. -/
def noRecentTracks : SpotifyData :=
  { isPlaying := false, songUrl := none, title := "No Recent Tracks",
    albumImageUrl := none, artist := "No listening history" }

/-- Placeholder returned by `getRecentlyPlayed`'s local catch. -/
def recentUnavailable : SpotifyData :=
  { isPlaying := false, songUrl := none, title := "Unable to fetch",
    albumImageUrl := none, artist := "Recent tracks unavailable" }

/-- Placeholder returned by `getSpotifyData`'s outer catch when no cache
entry survives. -/
def spotifyUnavailable : SpotifyData :=
  { isPlaying := false, songUrl := none, title := "Unable to fetch",
    albumImageUrl := none, artist := "Spotify data unavailable" }

/-- The `try` block of `getRecentlyPlayed`: everything that can throw
inside it surfaces as `Except.error`. -/
def getRecentlyPlayedTry (env : Env) : Except String SpotifyData :=
  match env.rpResp with
  | .throw => .error "fetch rejected"
  | .resp status body =>
    if !respOk status then
      .error ("Recently played API error: " ++ toString status)
    else
      match body with
      | none => .error "response.json() rejected"
      | some json =>
        match json.items with
        | none => .ok noRecentTracks
        | some [] => .ok noRecentTracks
        | some (item :: _) =>
          match item.track with
          | none => .error "TypeError: reading a property of undefined"
          | some t => .ok (withPlaying false (mapSpotifyData t))

/-- `getRecentlyPlayed`: the local `catch` converts every error of the try
block into the "Recent tracks unavailable" placeholder, so the function as
seen by the orchestration is total.  The recently-played request is always
issued (it is the first statement of the try block). -/
def getRecentlyPlayed (env : Env) : SpotifyData × List Call :=
  (match getRecentlyPlayedTry env with
   | .ok d => d
   | .error _ => recentUnavailable,
   [.recentlyPlayed])

/-- `getCachedData`: returns the cached record when the entry's age is at
most `CACHE_DURATION`, and otherwise destroys the entry (`cache = null`)
and reports a miss.  The second component is the value of the module-level
`cache` variable after the call. -/
def getCachedData (cache : Option CacheEntry) (now : Nat) :
    Option SpotifyData × Option CacheEntry :=
  match cache with
  | none => (none, none)
  | some c =>
    if now - c.timestamp > CACHE_DURATION then
      (none, none)
    else
      (some c.data, some c)

/-- `setCachedData`: overwrite the cache slot with the given record,
timestamped with the current instant. -/
def setCachedData (d : SpotifyData) (now : Nat) : Option CacheEntry :=
  some { data := d, timestamp := now }

/-- The record, the cache slot and the upstream requests produced by one
completed `getSpotifyData` call. -/
structure FetchResult where
  record : SpotifyData
  cache : Option CacheEntry
  calls : List Call
deriving DecidableEq, Repr

/-- What an exception escaping the `try` block of `getSpotifyData` carries
to the `catch`: the message, the value of the module-level `cache` variable
at that moment, and the upstream requests issued so far. -/
structure ThrownState where
  msg : String
  cache : Option CacheEntry
  calls : List Call
deriving DecidableEq, Repr

/-- The `try` block of `getSpotifyData` (everything before the outer
`catch`), with the mutable `cache` variable threaded explicitly.  Mirrors
the source statement by statement: cache probe, token acquisition,
`access_token` truthiness check, currently-playing request, the
204 / 401 / 403 / 429 / non-ok status dispatch, body parse, the
invalid-item guard, and the two `setCachedData`-then-return tails. -/
def getSpotifyDataTry (env : Env) (cache : Option CacheEntry) (now : Nat) :
    Except ThrownState FetchResult :=
  let gc := getCachedData cache now
  match gc.1 with
  | some cachedData => .ok { record := cachedData, cache := gc.2, calls := [] }
  | none =>
    let tok := getAccessToken env
    match tok.1 with
    | .error e => .error { msg := e, cache := gc.2, calls := tok.2 }
    | .ok tokenData =>
      if !truthy tokenData.access_token then
        .error { msg := "Failed to get access token", cache := gc.2, calls := tok.2 }
      else
        let calls2 := tok.2 ++ [Call.nowPlaying]
        match env.npResp with
        | .throw => .error { msg := "fetch rejected", cache := gc.2, calls := calls2 }
        | .resp status body =>
          if status = 204 then
            let recent := getRecentlyPlayed env
            .ok { record := recent.1, cache := setCachedData recent.1 now,
                  calls := calls2 ++ recent.2 }
          else if status = 401 then
            .error { msg := "Unauthorized - token may be expired", cache := gc.2, calls := calls2 }
          else if status = 403 then
            .error { msg := "Forbidden - insufficient scopes", cache := gc.2, calls := calls2 }
          else if status = 429 then
            .error { msg := "Rate limited - too many requests", cache := gc.2, calls := calls2 }
          else if !respOk status then
            .error { msg := "Spotify API error: " ++ toString status, cache := gc.2, calls := calls2 }
          else
            match body with
            | none => .error { msg := "response.json() rejected", cache := gc.2, calls := calls2 }
            | some data =>
              match data.item with
              | none =>
                let recent := getRecentlyPlayed env
                .ok { record := recent.1, cache := setCachedData recent.1 now,
                      calls := calls2 ++ recent.2 }
              | some t =>
                if t.name = "" || t.artists.isNone ||
                    data.currently_playing_type != some "track" then
                  let recent := getRecentlyPlayed env
                  .ok { record := recent.1, cache := setCachedData recent.1 now,
                        calls := calls2 ++ recent.2 }
                else
                  let result := withPlaying data.is_playing (mapSpotifyData t)
                  .ok { record := result, cache := setCachedData result now, calls := calls2 }

/-- `getSpotifyData`, the public operation: the `try` block plus the outer
`catch`, which returns the surviving cache entry's record if there is one
and the hard-coded placeholder otherwise.  The result type keeps an
`Except` error case to represent an exception escaping to the caller;
the development proves it never occurs. -/
def getSpotifyData (env : Env) (cache : Option CacheEntry) (now : Nat) :
    Except String FetchResult :=
  match getSpotifyDataTry env cache now with
  | .ok r => .ok r
  | .error thrown =>
    match thrown.cache with
    | some c => .ok { record := c.data, cache := some c, calls := thrown.calls }
    | none => .ok { record := spotifyUnavailable, cache := none, calls := thrown.calls }

/-! ## Helper lemmas -/

/-- A cache probe on a fresh entry returns the stored record and keeps the
entry. -/
theorem getCachedData_fresh (e : CacheEntry) (now : Nat)
    (h : now - e.timestamp ≤ CACHE_DURATION) :
    getCachedData (some e) now = (some e.data, some e) := by
  simp only [getCachedData]
  rw [if_neg (by omega)]

/-- A cache probe on an expired entry reports a miss and destroys the
entry. -/
theorem getCachedData_expired (e : CacheEntry) (now : Nat)
    (h : CACHE_DURATION < now - e.timestamp) :
    getCachedData (some e) now = (none, none) := by
  simp only [getCachedData]
  rw [if_pos h]

/-- Every record the try block of `getRecentlyPlayed` can return has
`isPlaying = false`. -/
theorem getRecentlyPlayedTry_isPlaying (env : Env) (d : SpotifyData)
    (h : getRecentlyPlayedTry env = .ok d) : d.isPlaying = false := by
  unfold getRecentlyPlayedTry at h
  repeat' split at h
  all_goals (try (cases h))
  all_goals simp_all [noRecentTracks, withPlaying]

/-! ## C1: the public operation is total -/

/-- C1: `getSpotifyData` is total: whatever the three credential variables
hold and however the token, currently-playing and recently-played upstream
endpoints behave (any status, any body — parseable or not — or a rejected
promise), and whatever the cache state, the call resolves to a fully
populated record and never propagates an error to its caller. -/
theorem getSpotifyData_total (env : Env) (cache : Option CacheEntry) (now : Nat) :
    ∃ r : FetchResult, getSpotifyData env cache now = .ok r := by
  unfold getSpotifyData
  cases h : getSpotifyDataTry env cache now with
  | ok r => exact ⟨r, rfl⟩
  | error thrown =>
    cases hc : thrown.cache with
    | some c =>
      exact ⟨{ record := c.data, cache := some c, calls := thrown.calls }, by simp [hc]⟩
    | none =>
      exact ⟨{ record := spotifyUnavailable, cache := none, calls := thrown.calls }, by simp [hc]⟩

/-! ## C4: fallback lookup never raises and always reports not playing -/

/-- C4: `getRecentlyPlayed` absorbs every behaviour of the recently-played
endpoint (non-success status, rejected promise, unparseable body, empty
item list, or a track item) into a returned record, and every record it
returns has `isPlaying = false`. -/
theorem getRecentlyPlayed_total_not_playing (env : Env) :
    (getRecentlyPlayed env).1.isPlaying = false := by
  unfold getRecentlyPlayed
  cases h : getRecentlyPlayedTry env with
  | ok d => simpa using getRecentlyPlayedTry_isPlaying env d h
  | error e => simp [recentUnavailable]

/-! ## Concrete sample data used by witnesses and counterexamples -/

/-- A distinctive, fully populated record for exercising the cache. -/
def sampleRecord : SpotifyData :=
  { isPlaying := true, songUrl := some "https://open.spotify.com/track/abc",
    title := "Song A", albumImageUrl := some "https://i.scdn.co/image/a1",
    artist := "Artist A" }

/-- A world in which every upstream promise rejects and no credential is
set. -/
def envAllThrow : Env :=
  { clientId := none, clientSecret := none, refreshToken := none,
    tokenResp := .throw, npResp := .throw, rpResp := .throw }

/-- A well-formed token-endpoint body carrying an access token. -/
def goodTokenBody : TokenBody :=
  { access_token := some "tok", error := none, error_description := none }

/-- A world in which only the client id is missing; the token request would
succeed if it were ever issued. -/
def envMissingCreds : Env :=
  { clientId := none, clientSecret := some "secret", refreshToken := some "refresh",
    tokenResp := .resp 200 (some goodTokenBody),
    npResp := .throw, rpResp := .throw }

/-! ## C3: a fresh cache entry makes fetch idempotent with no upstream calls -/

/-- C3: when a cache entry exists and its age is within the freshness
window, a `getSpotifyData` call returns the cached record and leaves the
entry in place, for every behaviour of the upstream world; hence two
consecutive calls with no time elapsing (the second running on the cache
state the first returned, under a possibly different upstream world) return
identical records, and the second call issues no token, currently-playing
or recently-played request (its call list is empty). -/
theorem freshCache_idempotent_no_upstream_calls (env1 env2 : Env) (e : CacheEntry)
    (now : Nat) (h : now - e.timestamp ≤ CACHE_DURATION) :
    getSpotifyData env1 (some e) now =
      .ok { record := e.data, cache := some e, calls := [] } ∧
    getSpotifyData env2 (some e) now =
      .ok { record := e.data, cache := some e, calls := [] } := by
  constructor <;>
    simp [getSpotifyData, getSpotifyDataTry, getCachedData_fresh e now h]

/-- Witness for C3 at a concrete fresh cache state. -/
theorem freshCache_idempotent_witness :
    5 - (10 : Nat) ≤ CACHE_DURATION ∧
    (getSpotifyData envAllThrow (some { data := sampleRecord, timestamp := 10 }) 5 =
      .ok { record := sampleRecord, cache := some { data := sampleRecord, timestamp := 10 },
            calls := [] } ∧
     getSpotifyData envAllThrow (some { data := sampleRecord, timestamp := 10 }) 5 =
      .ok { record := sampleRecord, cache := some { data := sampleRecord, timestamp := 10 },
            calls := [] }) :=
  ⟨by decide,
   freshCache_idempotent_no_upstream_calls envAllThrow envAllThrow
     { data := sampleRecord, timestamp := 10 } 5 (by decide)⟩

/-! ## C8: token failure with no prior cache yields the hard-coded placeholder -/

/-- C8: starting from an empty cache, if token acquisition throws (for any
reason — in particular a missing credential), `getSpotifyData` returns
exactly the record `{isPlaying: false, songUrl: null, title: "Unable to
fetch", albumImageUrl: null, artist: "Spotify data unavailable"}` and the
cache stays empty. -/
theorem token_failure_no_cache_placeholder (env : Env) (now : Nat)
    (h : ∃ e, (getAccessToken env).1 = Except.error e) :
    getSpotifyData env none now =
      .ok { record := { isPlaying := false, songUrl := none, title := "Unable to fetch",
                        albumImageUrl := none, artist := "Spotify data unavailable" },
            cache := none, calls := (getAccessToken env).2 } := by
  obtain ⟨e, he⟩ := h
  simp [getSpotifyData, getSpotifyDataTry, getCachedData, he, spotifyUnavailable]

/-- Witness for C8: missing client id, empty cache. -/
theorem token_failure_no_cache_witness :
    getSpotifyData envMissingCreds none 0 =
      .ok { record := { isPlaying := false, songUrl := none, title := "Unable to fetch",
                        albumImageUrl := none, artist := "Spotify data unavailable" },
            cache := none, calls := (getAccessToken envMissingCreds).2 } :=
  token_failure_no_cache_placeholder envMissingCreds 0
    ⟨"Missing Spotify credentials in environment variables", by rfl⟩

/-! ## C10: the freshness boundary is inclusive -/

/-- C10: the cache duration is 15000 ms; an entry whose age equals it
exactly is still served as a cache hit with no upstream calls; and the
probe expires (and destroys, setting the slot to `none`) an entry exactly
when its age is strictly greater than the duration. -/
theorem freshness_boundary_inclusive (env : Env) (e : CacheEntry) (now : Nat) :
    CACHE_DURATION = 15000 ∧
    (now - e.timestamp = CACHE_DURATION →
      getSpotifyData env (some e) now =
        .ok { record := e.data, cache := some e, calls := [] }) ∧
    (getCachedData (some e) now = (none, none) ↔ CACHE_DURATION < now - e.timestamp) := by
  refine ⟨rfl, fun h => ?_, ?_, ?_⟩
  · simp [getSpotifyData, getSpotifyDataTry, getCachedData_fresh e now (le_of_eq h)]
  · intro hnone
    by_contra hle
    rw [getCachedData_fresh e now (by omega)] at hnone
    simp at hnone
  · intro hgt
    exact getCachedData_expired e now hgt

/-- Witness for C10 at an entry aged exactly 15000 ms. -/
theorem freshness_boundary_witness :
    getSpotifyData envAllThrow (some { data := sampleRecord, timestamp := 0 }) 15000 =
      .ok { record := sampleRecord, cache := some { data := sampleRecord, timestamp := 0 },
            calls := [] } :=
  (freshness_boundary_inclusive envAllThrow { data := sampleRecord, timestamp := 0 } 15000).2.1
    (by decide)

/-! ## C2: the stale-cache rescue is unreachable for expired entries -/

/-- C2 (code bug): with a populated but expired cache entry (age 15001 ms)
and a total upstream failure (missing credential, so token acquisition
throws), `getSpotifyData` returns the hard-coded placeholder and destroys
the cache entry, instead of the previously cached record: the cache probe
sets the module-level slot to `null` before the refresh is attempted, so
the `catch` block's "return cached data if available, even if expired"
branch can never see the expired entry. -/
theorem expiredCache_failure_returns_placeholder :
    getSpotifyData envMissingCreds
        (some { data := sampleRecord, timestamp := 0 }) (CACHE_DURATION + 1) =
      .ok { record := spotifyUnavailable, cache := none, calls := [] } ∧
    spotifyUnavailable ≠ sampleRecord := by
  constructor
  · rfl
  · decide

/-! ## C9: every completed refresh replaces the cache with the returned record -/

/-- C9: any call that passes the cache check (the probe reports a miss) and
whose try block completes without throwing — the primary-success path and
both fallback delegations, including a fallback degraded to its local
placeholder — stores the record it returns as the new cache entry,
timestamped with the current instant. -/
theorem completed_refresh_repopulates_cache (env : Env) (cache : Option CacheEntry)
    (now : Nat) (r : FetchResult)
    (hmiss : (getCachedData cache now).1 = none)
    (h : getSpotifyDataTry env cache now = .ok r) :
    getSpotifyData env cache now = .ok r ∧
    r.cache = some { data := r.record, timestamp := now } := by
  refine ⟨by simp [getSpotifyData, h], ?_⟩
  simp only [getSpotifyDataTry, hmiss] at h
  repeat' split at h
  all_goals first
    | (injection h with h; subst h; simp [setCachedData])
    | simp_all

/-- A raw track with every field populated. -/
def fullTrack : Track :=
  { external_urls_spotify := some "https://open.spotify.com/track/abc",
    name := "Song A",
    album := some { images := [{ url := "https://i.scdn.co/image/a1" },
                               { url := "https://i.scdn.co/image/a2" }] },
    artists := some ["Artist A", "Artist B"] }

/-- A world in which every upstream interaction succeeds and a track is
currently playing. -/
def envHappy : Env :=
  { clientId := some "id", clientSecret := some "secret", refreshToken := some "refresh",
    tokenResp := .resp 200 (some goodTokenBody),
    npResp := .resp 200 (some { item := some fullTrack,
                                currently_playing_type := some "track",
                                is_playing := true }),
    rpResp := .resp 200 (some { items := some [{ track := some fullTrack }] }) }

/-- The result of a happy-path refresh at instant 7. -/
def happyResult : FetchResult :=
  { record := withPlaying true (mapSpotifyData fullTrack),
    cache := setCachedData (withPlaying true (mapSpotifyData fullTrack)) 7,
    calls := [.token, .nowPlaying] }

/-- Witness for C9 on the concrete happy path. -/
theorem completed_refresh_witness :
    getSpotifyData envHappy none 7 = .ok happyResult ∧
    happyResult.cache = some { data := happyResult.record, timestamp := 7 } :=
  completed_refresh_repopulates_cache envHappy none 7 happyResult (by rfl) (by rfl)

/-! ## C5: the normalization mapping -/

/-- The normalization mapping read literally off the claim: `songUrl` is
the track's canonical web link (null only when the link is absent);
`title` is the track name ("Unknown Track" when blank); `albumImageUrl` is
the URL of the first image in the album's image list (null when that list
is empty — or when there is no album object to take a list from, a case the
claim does not mention); `artist` is the ", "-join of all artist names in
original order ("Unknown Artist" when the name list is empty or absent). -/
def specMapTrackLiteral (t : Track) : TrackInfo where
  songUrl := t.external_urls_spotify
  title := if t.name = "" then "Unknown Track" else t.name
  albumImageUrl :=
    match t.album with
    | none => none
    | some a =>
      match a.images with
      | [] => none
      | img :: _ => some img.url
  artist :=
    match t.artists.getD [] with
    | [] => "Unknown Artist"
    | names => String.intercalate ", " names

/-- A payload on which the literal reading diverges from the code: the web
link is present but empty, the first album image has an empty URL, and the
single artist name is blank. -/
def edgeTrack : Track :=
  { external_urls_spotify := some "",
    name := "Edge",
    album := some { images := [{ url := "" }] },
    artists := some [""] }

/-- Counterexample to C5 as stated: on `edgeTrack` the code yields
`songUrl = none`, `albumImageUrl = none` and `artist = "Unknown Artist"`,
while the claim's reading demands `some ""`, `some ""` and `""`. -/
theorem mapSpotifyData_claim_counterexample :
    mapSpotifyData edgeTrack ≠ specMapTrackLiteral edgeTrack := by decide

/-- The normalization mapping as amended: empty strings count as absent,
i.e. an absent or empty web link yields a null `songUrl`, an absent album,
empty image list or empty first-image URL yields a null `albumImageUrl`,
and an artist-name list that is absent or whose ", "-join is empty (no
names, or a lone blank name) yields "Unknown Artist". -/
def specMapTrackAmended (t : Track) : TrackInfo where
  songUrl :=
    match t.external_urls_spotify with
    | none => none
    | some link => if link = "" then none else some link
  title := if t.name = "" then "Unknown Track" else t.name
  albumImageUrl :=
    match t.album with
    | none => none
    | some a =>
      match a.images with
      | [] => none
      | img :: _ => if img.url = "" then none else some img.url
  artist :=
    match t.artists with
    | none => "Unknown Artist"
    | some names =>
      if String.intercalate ", " names = "" then "Unknown Artist"
      else String.intercalate ", " names

attribute [ext] TrackInfo

/-- C5 (amended): `mapSpotifyData` agrees with the amended normalization
mapping on every raw track payload. -/
theorem mapSpotifyData_spec (t : Track) :
    mapSpotifyData t = specMapTrackAmended t := by
  obtain ⟨url, name, album, artists⟩ := t
  apply TrackInfo.ext
  · cases url <;> rfl
  · rfl
  · cases album with
    | none => rfl
    | some a =>
      obtain ⟨imgs⟩ := a
      cases imgs <;> rfl
  · cases artists with
    | none => rfl
    | some names =>
      by_cases hj : String.intercalate ", " names = ""
      · simp [mapSpotifyData, specMapTrackAmended, hj]
      · simp [mapSpotifyData, specMapTrackAmended, hj]

/-! ## C7: when token acquisition raises -/

/-- Whether a token-acquisition outcome is a thrown error. -/
def raised (x : Except String TokenBody) : Bool :=
  match x with
  | .error _ => true
  | .ok _ => false

/-- The raising condition of claim C7, read literally: a credential is
absent, the token interaction produces no successful HTTP response, or the
parsed JSON body contains an error field. -/
def tokenRaiseClaim (env : Env) : Bool :=
  env.clientId.isNone || env.clientSecret.isNone || env.refreshToken.isNone ||
  (match env.tokenResp with
   | .throw => true
   | .resp status body =>
     !respOk status ||
     (match body with
      | none => false
      | some data => data.error.isSome))

/-- A world with all credentials set whose token endpoint answers 200 with
a body that fails to parse as JSON. -/
def envBadJson : Env :=
  { clientId := some "id", clientSecret := some "secret", refreshToken := some "refresh",
    tokenResp := .resp 200 none,
    npResp := .throw, rpResp := .throw }

/-- Counterexample to C7 as stated: with all credentials set and a 200
token response whose body is not valid JSON, `getAccessToken` raises (the
`response.json()` promise rejects, unguarded), although no credential is
absent, the HTTP response is successful, and no parsed body contains an
error field. -/
theorem getAccessToken_claim_counterexample :
    raised (getAccessToken envBadJson).1 = true ∧ tokenRaiseClaim envBadJson = false := by
  constructor
  · rfl
  · rfl

/-- The raising condition as amended: a credential is missing or empty
(checked before any network call), the token request's promise rejects,
the HTTP response is not successful, the response body fails to parse as
JSON, or the parsed body carries a non-empty error field. -/
def tokenRaiseAmended (env : Env) : Bool :=
  !truthy env.clientId || !truthy env.clientSecret || !truthy env.refreshToken ||
  (match env.tokenResp with
   | .throw => true
   | .resp status body =>
     !respOk status ||
     (match body with
      | none => true
      | some data => truthy data.error))

/-- C7 (amended): `getAccessToken` raises exactly under the amended
condition, and otherwise returns the parsed token body of the response. -/
theorem getAccessToken_raises_iff (env : Env) :
    raised (getAccessToken env).1 = tokenRaiseAmended env ∧
    (∀ status body, env.tokenResp = FetchOutcome.resp status (some body) →
      tokenRaiseAmended env = false → (getAccessToken env).1 = .ok body) := by
  constructor
  · cases henv : env.tokenResp with
    | throw =>
      by_cases h1 : truthy env.clientId = true <;>
        by_cases h2 : truthy env.clientSecret = true <;>
        by_cases h3 : truthy env.refreshToken = true <;>
        simp [getAccessToken, tokenRaiseAmended, raised, henv, h1, h2, h3]
    | resp status body =>
      cases body with
      | none =>
        by_cases h1 : truthy env.clientId = true <;>
          by_cases h2 : truthy env.clientSecret = true <;>
          by_cases h3 : truthy env.refreshToken = true <;>
          by_cases h4 : respOk status = true <;>
          simp [getAccessToken, tokenRaiseAmended, raised, henv, h1, h2, h3, h4]
      | some data =>
        by_cases h1 : truthy env.clientId = true <;>
          by_cases h2 : truthy env.clientSecret = true <;>
          by_cases h3 : truthy env.refreshToken = true <;>
          by_cases h4 : respOk status = true <;>
          by_cases h5 : truthy data.error = true <;>
          simp [getAccessToken, tokenRaiseAmended, raised, henv, h1, h2, h3, h4, h5]
  · intro status body hresp hfalse
    unfold tokenRaiseAmended at hfalse
    rw [hresp] at hfalse
    unfold getAccessToken
    rw [hresp]
    by_cases h1 : truthy env.clientId = true <;>
      by_cases h2 : truthy env.clientSecret = true <;>
      by_cases h3 : truthy env.refreshToken = true <;>
      by_cases h4 : respOk status = true <;>
      by_cases h5 : truthy body.error = true <;>
      simp_all

/-- Witness for C7 at a world where the token exchange succeeds. -/
theorem getAccessToken_raises_iff_witness :
    raised (getAccessToken envHappy).1 = tokenRaiseAmended envHappy ∧
    (getAccessToken envHappy).1 = .ok goodTokenBody :=
  ⟨(getAccessToken_raises_iff envHappy).1,
   (getAccessToken_raises_iff envHappy).2 200 goodTokenBody rfl (by rfl)⟩

/-! ## C6: an invalid track item is handled exactly like 204 No Content -/

/-- On a cache miss with a usable token, a 204 No Content answer from the
currently-playing endpoint makes the try block delegate to the fallback,
cache its record and return it. -/
theorem getSpotifyDataTry_204 (env : Env) (cache : Option CacheEntry) (now : Nat)
    (td : TokenBody) (body : Option NowPlayingBody)
    (hmiss : (getCachedData cache now).1 = none)
    (htok : (getAccessToken env).1 = .ok td)
    (hat : truthy td.access_token = true)
    (hnp : env.npResp = FetchOutcome.resp 204 body) :
    getSpotifyDataTry env cache now =
      .ok { record := (getRecentlyPlayed env).1,
            cache := setCachedData (getRecentlyPlayed env).1 now,
            calls := (getAccessToken env).2 ++ [Call.nowPlaying] ++ (getRecentlyPlayed env).2 } := by
  simp [getSpotifyDataTry, hmiss, htok, hat, hnp]

/-- On a cache miss with a usable token, a successful non-204 response
whose parsed body lacks a valid track item (missing item, blank name,
missing artists array, or a currently-playing type other than "track")
also delegates to the fallback, caches its record and returns it. -/
theorem getSpotifyDataTry_invalid_item (env : Env) (cache : Option CacheEntry) (now : Nat)
    (td : TokenBody) (status : Nat) (data : NowPlayingBody)
    (hmiss : (getCachedData cache now).1 = none)
    (htok : (getAccessToken env).1 = .ok td)
    (hat : truthy td.access_token = true)
    (hnp : env.npResp = FetchOutcome.resp status (some data))
    (hok : respOk status = true)
    (h204 : status ≠ 204)
    (hinv : data.item = none ∨
      ∃ t, data.item = some t ∧
        (t.name = "" ∨ t.artists = none ∨ data.currently_playing_type ≠ some "track")) :
    getSpotifyDataTry env cache now =
      .ok { record := (getRecentlyPlayed env).1,
            cache := setCachedData (getRecentlyPlayed env).1 now,
            calls := (getAccessToken env).2 ++ [Call.nowPlaying] ++ (getRecentlyPlayed env).2 } := by
  have hsb : 200 ≤ status ∧ status ≤ 299 := by simpa [respOk] using hok
  have h401 : status ≠ 401 := by omega
  have h403 : status ≠ 403 := by omega
  have h429 : status ≠ 429 := by omega
  rcases hinv with hnone | ⟨t, ht, hcond⟩
  · simp [getSpotifyDataTry, hmiss, htok, hat, hnp, h204, h401, h403, h429, hok, hnone]
  · rcases hcond with hc | hc | hc <;>
      simp [getSpotifyDataTry, hmiss, htok, hat, hnp, h204, h401, h403, h429, hok, ht, hc]

/-- C6: a successful (2xx, non-204) primary response whose body lacks a
valid track item makes `getSpotifyData` behave exactly as if the primary
endpoint had answered 204 No Content: it delegates to the fallback, caches
whatever record the fallback produced (timestamped now) and returns it. -/
theorem invalid_item_same_as_204 (env : Env) (cache : Option CacheEntry) (now : Nat)
    (td : TokenBody) (status : Nat) (data : NowPlayingBody)
    (hmiss : (getCachedData cache now).1 = none)
    (htok : (getAccessToken env).1 = .ok td)
    (hat : truthy td.access_token = true)
    (hnp : env.npResp = FetchOutcome.resp status (some data))
    (hok : respOk status = true)
    (h204 : status ≠ 204)
    (hinv : data.item = none ∨
      ∃ t, data.item = some t ∧
        (t.name = "" ∨ t.artists = none ∨ data.currently_playing_type ≠ some "track")) :
    getSpotifyData env cache now =
      getSpotifyData { env with npResp := FetchOutcome.resp 204 none } cache now ∧
    getSpotifyData env cache now =
      .ok { record := (getRecentlyPlayed env).1,
            cache := some { data := (getRecentlyPlayed env).1, timestamp := now },
            calls := (getAccessToken env).2 ++ [Call.nowPlaying] ++ (getRecentlyPlayed env).2 } := by
  have hL := getSpotifyDataTry_invalid_item env cache now td status data
    hmiss htok hat hnp hok h204 hinv
  have hacc : getAccessToken { env with npResp := FetchOutcome.resp 204 none } =
      getAccessToken env := rfl
  have hrp : getRecentlyPlayed { env with npResp := FetchOutcome.resp 204 none } =
      getRecentlyPlayed env := rfl
  have hR := getSpotifyDataTry_204 { env with npResp := FetchOutcome.resp 204 none } cache now
    td none hmiss (by rw [hacc]; exact htok) hat rfl
  rw [hacc, hrp] at hR
  constructor
  · simp [getSpotifyData, hL, hR]
  · simp [getSpotifyData, hL, setCachedData]

/-- A currently-playing body whose item is an ad, not a track. -/
def adBody : NowPlayingBody :=
  { item := some fullTrack, currently_playing_type := some "ad", is_playing := true }

/-- A world in which every upstream interaction succeeds but the primary
lookup reports an ad being played. -/
def envAd : Env :=
  { clientId := some "id", clientSecret := some "secret", refreshToken := some "refresh",
    tokenResp := .resp 200 (some goodTokenBody),
    npResp := .resp 200 (some adBody),
    rpResp := .resp 200 (some { items := some [{ track := some fullTrack }] }) }

/-- Witness for C6: an ad with a 200 primary response, empty cache. -/
theorem invalid_item_same_as_204_witness :
    getSpotifyData envAd none 3 =
      getSpotifyData { envAd with npResp := FetchOutcome.resp 204 none } none 3 ∧
    getSpotifyData envAd none 3 =
      .ok { record := (getRecentlyPlayed envAd).1,
            cache := some { data := (getRecentlyPlayed envAd).1, timestamp := 3 },
            calls := (getAccessToken envAd).2 ++ [Call.nowPlaying] ++ (getRecentlyPlayed envAd).2 } :=
  invalid_item_same_as_204 envAd none 3 goodTokenBody 200 adBody
    rfl rfl rfl rfl (by decide) (by decide)
    (Or.inr ⟨fullTrack, rfl, Or.inr (Or.inr (by decide))⟩)

end SpotifyService
